import Mathlib

set_option maxRecDepth 4000

/-!
Shallow embedding of the bloom-desktop hardware layer
(`src/python/hardware/daq.py`, `src/python/hardware/scanner.py`,
`src/python/ipc_handler.py`) and proofs about it.

Python floats are modelled as rationals (ℚ); Python `int(x)` (truncation
toward zero) is modelled by `pyInt`; Python float `%` with a positive
modulus is `a - 360 * ⌊a / 360⌋` for modulus 360 (`rotMod`).
-/

/-- Python `int(x)`: truncation toward zero. -/
def pyInt (x : ℚ) : ℤ := if 0 ≤ x then ⌊x⌋ else -⌊-x⌋

/-- `daq.py` line 112: `steps_needed = int(abs(degrees) * steps_per_revolution / 360.0)`. -/
def steps_needed (degrees : ℚ) (steps_per_revolution : ℕ) : ℕ :=
  (pyInt (|degrees| * steps_per_revolution / 360)).toNat

/-- `daq.py` line 113: `direction = 1 if degrees >= 0 else -1`. -/
def rotate_direction (degrees : ℚ) : ℤ := if 0 ≤ degrees then 1 else -1

/-- `daq.py` line 121: `(current_position + degrees) % 360.0`, Python float
modulo with positive modulus (result has the sign of the modulus). -/
def rotMod (a : ℚ) : ℚ := a - 360 * (⌊a / 360⌋ : ℚ)

theorem pyInt_nonneg_eq_floor (x : ℚ) (hx : 0 ≤ x) : pyInt x = ⌊x⌋ := by
  simp [pyInt, hx]

theorem steps_needed_eq_floor (degrees : ℚ) (spr : ℕ) :
    (steps_needed degrees spr : ℤ) = ⌊|degrees| * spr / 360⌋ := by
  have harg : (0 : ℚ) ≤ |degrees| * spr / 360 := by positivity
  have hfl : (0 : ℤ) ≤ ⌊|degrees| * spr / 360⌋ := Int.floor_nonneg.mpr harg
  simp [steps_needed, pyInt_nonneg_eq_floor _ harg, Int.toNat_of_nonneg hfl]

theorem rotMod_nonneg (a : ℚ) : 0 ≤ rotMod a := by
  have h : (⌊a / 360⌋ : ℚ) ≤ a / 360 := Int.floor_le _
  have h360 : (0 : ℚ) < 360 := by norm_num
  rw [rotMod, sub_nonneg]
  calc 360 * (⌊a / 360⌋ : ℚ) ≤ 360 * (a / 360) := by
        exact mul_le_mul_of_nonneg_left h (le_of_lt h360)
    _ = a := by field_simp

theorem rotMod_lt (a : ℚ) : rotMod a < 360 := by
  have h : a / 360 < (⌊a / 360⌋ : ℚ) + 1 := Int.lt_floor_add_one _
  have h360 : (0 : ℚ) < 360 := by norm_num
  rw [rotMod, sub_lt_iff_lt_add]
  have := mul_lt_mul_of_pos_left h h360
  calc a = 360 * (a / 360) := by field_simp
    _ < 360 * ((⌊a / 360⌋ : ℚ) + 1) := mul_lt_mul_of_pos_left h h360
    _ = 360 + 360 * (⌊a / 360⌋ : ℚ) := by ring

theorem rotMod_add_int_mul (a : ℚ) (k : ℤ) : rotMod (a + 360 * k) = rotMod a := by
  have : (a + 360 * k) / 360 = a / 360 + k := by field_simp; ring
  simp only [rotMod, this, Int.floor_add_int]
  push_cast
  ring

theorem rotMod_eq_self (a : ℚ) (h0 : 0 ≤ a) (h1 : a < 360) : rotMod a = a := by
  have : ⌊a / 360⌋ = 0 := by
    rw [Int.floor_eq_zero_iff]
    constructor
    · positivity
    · rw [div_lt_one (by norm_num : (0:ℚ) < 360)]; exact h1
  simp [rotMod, this]

theorem rotMod_rotMod_add (a b : ℚ) : rotMod (rotMod a + b) = rotMod (a + b) := by
  have h2 := rotMod_add_int_mul (a + b) (-⌊a / 360⌋)
  rw [← h2]
  congr 1
  simp only [rotMod]
  push_cast
  ring

/-! ## Pulse train generation (`daq.py`, `_generate_step_pulses`, lines 218-250)

`samples_per_step = int(sampling_rate / 1000)`, `half_samples = samples_per_step // 2`;
for each step the code appends `half_samples` low samples then `half_samples`
high samples to the step channel; the direction channel is the constant
`direction > 0` over the same length. -/

/-- The two digital output channels produced by `_generate_step_pulses`:
row 0 is the step line, row 1 the direction line. -/
structure PulseTrain where
  stepCh : List Bool
  dirCh : List Bool
  deriving DecidableEq, Repr

/-- The step-channel samples for `num_steps` steps, `half` low then `half`
high per step (`daq.py` lines 235-241). -/
def step_samples (half : ℕ) : ℕ → List Bool
  | 0 => []
  | n + 1 => (List.replicate half false ++ List.replicate half true) ++ step_samples half n

/-- `daq.py` `_generate_step_pulses(num_steps, direction)` for a given
`sampling_rate` (an integer setting, so `int(rate / 1000)` is `rate / 1000`). -/
def generate_step_pulses (num_steps : ℕ) (direction : ℤ) (sampling_rate : ℕ) :
    PulseTrain :=
  let samples_per_step := sampling_rate / 1000
  let half_samples := samples_per_step / 2
  let stepCh := step_samples half_samples num_steps
  let dir_value := decide (0 < direction)
  { stepCh := stepCh, dirCh := List.replicate stepCh.length dir_value }

theorem step_samples_length (half n : ℕ) :
    (step_samples half n).length = n * (2 * half) := by
  induction n with
  | zero => simp [step_samples]
  | succ k ih =>
    simp [step_samples, ih]
    ring

theorem step_samples_count_true (half n : ℕ) :
    (step_samples half n).count true = n * half := by
  induction n with
  | zero => simp [step_samples]
  | succ k ih =>
    simp [step_samples, List.count_append, ih, List.count_replicate]
    ring

theorem step_samples_step_shape (half : ℕ) :
    ∀ n k, k < n →
      ((step_samples half n).drop (k * (2 * half))).take (2 * half)
        = List.replicate half false ++ List.replicate half true := by
  intro n
  induction n with
  | zero => intro k hk; exact absurd hk (Nat.not_lt_zero k)
  | succ m ih =>
    intro k hk
    cases k with
    | zero =>
      simp only [step_samples, Nat.zero_mul, List.drop_zero]
      exact List.take_left' (by simp [Nat.two_mul])
    | succ j =>
      have hdrop : (step_samples half (m + 1)).drop ((j + 1) * (2 * half))
          = (step_samples half m).drop (j * (2 * half)) := by
        have h1 : (j + 1) * (2 * half) = 2 * half + j * (2 * half) := by ring
        rw [h1, ← List.drop_drop]
        congr 1
        simp only [step_samples]
        exact List.drop_left' (by simp [Nat.two_mul])
      rw [hdrop]
      exact ih j (by omega)

theorem step_samples_count_false (half n : ℕ) :
    (step_samples half n).count false = n * half := by
  induction n with
  | zero => simp [step_samples]
  | succ k ih =>
    simp [step_samples, List.count_append, ih, List.count_replicate]
    ring

/-! ## Motion execution wait loop (`daq.py`, `_write_and_execute`, lines 252-308)

The loop makes `wait_until_done` calls while `not done` and
`retry_count < 1000`; a `DaqError` with code -200563 increments
`retry_count`, any other error propagates; exhaustion raises a timeout
error. Every error is re-raised as a `RuntimeError` after the task is
stopped (a failing `stop` during that cleanup is swallowed). -/

/-- Outcome of one `task.wait_until_done(0.005)` call. -/
inductive WaitOutcome where
  | ok : WaitOutcome
  | daqError (code : ℤ) : WaitOutcome
  deriving DecidableEq, Repr

/-- `daq.py` line 32: `DAQ_ERROR_TIMEOUT = -200563`. -/
def DAQ_ERROR_TIMEOUT : ℤ := -200563

/-- `daq.py` line 27: `DAQ_RETRY_MAX_ATTEMPTS = 1000`. -/
def DAQ_RETRY_MAX_ATTEMPTS : ℕ := 1000

/-- How the wait loop ended. -/
inductive WaitLoopResult where
  | completed : WaitLoopResult
  | aborted (code : ℤ) : WaitLoopResult
  | exhausted : WaitLoopResult
  deriving DecidableEq, Repr

/-- The retry loop of `_write_and_execute` (lines 280-291): `w i` is the
outcome of the `i`-th `wait_until_done` call; `calls` counts calls made so
far, the fuel is `DAQ_RETRY_MAX_ATTEMPTS - retry_count`.  Returns the total
number of wait calls made and the loop outcome. -/
def wait_loop_aux (w : ℕ → WaitOutcome) (calls : ℕ) : ℕ → ℕ × WaitLoopResult
  | 0 => (calls, WaitLoopResult.exhausted)
  | fuel + 1 =>
    match w calls with
    | WaitOutcome.ok => (calls + 1, WaitLoopResult.completed)
    | WaitOutcome.daqError code =>
      if code = DAQ_ERROR_TIMEOUT then wait_loop_aux w (calls + 1) fuel
      else (calls + 1, WaitLoopResult.aborted code)

/-- The full retry loop, starting from `retry_count = 0`. -/
def wait_loop (w : ℕ → WaitOutcome) : ℕ × WaitLoopResult :=
  wait_loop_aux w 0 DAQ_RETRY_MAX_ATTEMPTS

/-- Errors `_write_and_execute` can surface (always wrapped in
`RuntimeError("DAQ execution failed: ...")` by lines 301-308). -/
inductive ExecError where
  | motionTimeout : ExecError
  | daqError (code : ℤ) : ExecError
  | stopFailed : ExecError
  deriving DecidableEq, Repr

/-- Observable trace of one `_write_and_execute` run: number of wait calls,
final outcome, and whether `task.stop()` was invoked before returning or
raising. -/
structure ExecTrace where
  waitCalls : ℕ
  result : Option ExecError
  stopCalled : Bool
  deriving DecidableEq, Repr

/-- `_write_and_execute` after a successful configure/write/start, driven by
the wait outcomes `w`; `stop_fails` says whether `task.stop()` raises.  On
the success path a failing stop (line 299) is caught by the outer handler,
which stops again (swallowed, lines 303-307) and raises; on every failure
path the task is stopped and the stop failure swallowed, the original
error propagating. -/
def write_and_execute (w : ℕ → WaitOutcome) (stop_fails : Bool) : ExecTrace :=
  match wait_loop w with
  | (c, WaitLoopResult.completed) =>
    if stop_fails then
      { waitCalls := c, result := some ExecError.stopFailed, stopCalled := true }
    else
      { waitCalls := c, result := none, stopCalled := true }
  | (c, WaitLoopResult.aborted code) =>
    { waitCalls := c, result := some (ExecError.daqError code), stopCalled := true }
  | (c, WaitLoopResult.exhausted) =>
    { waitCalls := c, result := some ExecError.motionTimeout, stopCalled := true }

theorem wait_loop_aux_ok_step (w : ℕ → WaitOutcome) (calls fuel : ℕ)
    (h : w calls = WaitOutcome.ok) :
    wait_loop_aux w calls (fuel + 1) = (calls + 1, WaitLoopResult.completed) := by
  simp [wait_loop_aux, h]

theorem wait_loop_aux_timeout_step (w : ℕ → WaitOutcome) (calls fuel : ℕ)
    (h : w calls = WaitOutcome.daqError DAQ_ERROR_TIMEOUT) :
    wait_loop_aux w calls (fuel + 1) = wait_loop_aux w (calls + 1) fuel := by
  simp [wait_loop_aux, h]

theorem wait_loop_aux_abort_step (w : ℕ → WaitOutcome) (calls fuel : ℕ) (code : ℤ)
    (h : w calls = WaitOutcome.daqError code) (hc : code ≠ DAQ_ERROR_TIMEOUT) :
    wait_loop_aux w calls (fuel + 1) = (calls + 1, WaitLoopResult.aborted code) := by
  simp [wait_loop_aux, h, hc]

theorem wait_loop_aux_calls_le (w : ℕ → WaitOutcome) :
    ∀ fuel calls, (wait_loop_aux w calls fuel).1 ≤ calls + fuel := by
  intro fuel
  induction fuel with
  | zero => intro calls; simp [wait_loop_aux]
  | succ f ih =>
    intro calls
    cases hw : w calls with
    | ok =>
      rw [wait_loop_aux_ok_step w calls f hw]
      omega
    | daqError code =>
      by_cases hc : code = DAQ_ERROR_TIMEOUT
      · subst hc
        rw [wait_loop_aux_timeout_step w calls f hw]
        have := ih (calls + 1)
        omega
      · rw [wait_loop_aux_abort_step w calls f code hw hc]
        omega

theorem wait_loop_aux_exhausted (w : ℕ → WaitOutcome) :
    ∀ fuel calls,
      (∀ j, calls ≤ j → j < calls + fuel → w j = WaitOutcome.daqError DAQ_ERROR_TIMEOUT) →
      wait_loop_aux w calls fuel = (calls + fuel, WaitLoopResult.exhausted) := by
  intro fuel
  induction fuel with
  | zero => intro calls _; simp [wait_loop_aux]
  | succ f ih =>
    intro calls h
    have hc : w calls = WaitOutcome.daqError DAQ_ERROR_TIMEOUT := h calls le_rfl (by omega)
    rw [wait_loop_aux_timeout_step w calls f hc]
    have hrec := ih (calls + 1) (fun j hj1 hj2 => h j (by omega) (by omega))
    rw [hrec]
    have : calls + 1 + f = calls + (f + 1) := by omega
    rw [this]

theorem wait_loop_aux_aborted (w : ℕ → WaitOutcome) (code : ℤ)
    (hcode : code ≠ DAQ_ERROR_TIMEOUT) :
    ∀ i fuel calls, i < fuel →
      w (calls + i) = WaitOutcome.daqError code →
      (∀ j, j < i → w (calls + j) = WaitOutcome.daqError DAQ_ERROR_TIMEOUT) →
      wait_loop_aux w calls fuel = (calls + i + 1, WaitLoopResult.aborted code) := by
  intro i
  induction i with
  | zero =>
    intro fuel calls hfu hv _
    obtain ⟨f, rfl⟩ : ∃ f, fuel = f + 1 := ⟨fuel - 1, by omega⟩
    simp only [Nat.add_zero] at hv
    rw [wait_loop_aux_abort_step w calls f code hv hcode]
  | succ i ih =>
    intro fuel calls hfu hv hprev
    obtain ⟨f, rfl⟩ : ∃ f, fuel = f + 1 := ⟨fuel - 1, by omega⟩
    have h0 : w calls = WaitOutcome.daqError DAQ_ERROR_TIMEOUT := by
      have := hprev 0 (by omega)
      simpa using this
    rw [wait_loop_aux_timeout_step w calls f h0]
    have hv' : w (calls + 1 + i) = WaitOutcome.daqError code := by
      have he : calls + 1 + i = calls + (i + 1) := by omega
      rw [he]; exact hv
    have hprev' : ∀ j, j < i → w (calls + 1 + j) = WaitOutcome.daqError DAQ_ERROR_TIMEOUT := by
      intro j hj
      have he : calls + 1 + j = calls + (j + 1) := by omega
      rw [he]
      exact hprev (j + 1) (by omega)
    have hrec := ih f (calls + 1) (by omega) hv' hprev'
    rw [hrec]
    have : calls + 1 + i + 1 = calls + (i + 1) + 1 := by omega
    rw [this]

/-! ## DAQ state machine (`daq.py`, class `DAQ`)

Mutable state: `is_initialized` and `current_position` (lines 44-47).
`initialize` resets the position to 0 (line 85), `rotate` sets
`(current_position + degrees) % 360.0` (line 121), `step` leaves it
unchanged, `home` ends with `current_position = 0.0` (line 188),
`cleanup` clears `is_initialized` (line 207). -/

structure DAQState where
  is_initialized : Bool
  current_position : ℚ
  deriving DecidableEq, Repr

/-- Fresh `DAQ.__init__` state (lines 44-47). -/
def DAQState.new : DAQState := { is_initialized := false, current_position := 0 }

inductive DAQOp where
  | init : DAQOp
  | rotate (degrees : ℚ) : DAQOp
  | step (num_steps : ℕ) (direction : ℤ) : DAQOp
  | home : DAQOp
  | cleanup : DAQOp

/-- `home()` lines 177-182: signed delta back to 0°, complementary arc when
`|delta| > 180`. -/
def degrees_to_home (p : ℚ) : ℚ :=
  let d := -p
  if 180 < |d| then (360 - |d|) * (if 0 < d then -1 else 1) else d

/-- `home()` line 185: the argument of the `rotate` call, or `none` when the
move is skipped (`abs(degrees_to_home) > 0.1` guard). -/
def home_rotate_arg (p : ℚ) : Option ℚ :=
  let d := degrees_to_home p
  if 1 / 10 < |d| then some d else none

/-- The successful transitions of the `DAQ` class, one per public method;
`.error` is a raised exception (state unchanged, Python re-raises before
any mutation). -/
def apply_daq_op (s : DAQState) : DAQOp → Except String DAQState
  | DAQOp.init =>
    if s.is_initialized then Except.ok s
    else Except.ok { is_initialized := true, current_position := 0 }
  | DAQOp.rotate degrees =>
    if s.is_initialized then
      Except.ok { is_initialized := true,
                  current_position := rotMod (s.current_position + degrees) }
    else Except.error "DAQ not initialized. Call initialize() first."
  | DAQOp.step _ direction =>
    if s.is_initialized then
      if direction = 1 ∨ direction = -1 then Except.ok s
      else Except.error "Direction must be 1 or -1"
    else Except.error "DAQ not initialized. Call initialize() first."
  | DAQOp.home =>
    if s.is_initialized then
      Except.ok { is_initialized := true, current_position := 0 }
    else Except.error "DAQ not initialized. Call initialize() first."
  | DAQOp.cleanup =>
    Except.ok { is_initialized := false, current_position := s.current_position }

/-- Number of hardware writes issued by `step(n, dir)`: lines 152-153 return
immediately when `num_steps == 0`, before any pulse generation or write. -/
def step_hw_writes (num_steps : ℕ) : ℕ :=
  if num_steps = 0 then 0 else 1

/-- Observable effect of one successful `rotate(degrees)` call on an
initialized DAQ (lines 111-127): computed step count, hardware writes
issued through `step`, and the updated position. -/
structure RotateTrace where
  steps : ℕ
  hw_writes : ℕ
  new_position : ℚ
  returned_true : Bool
  deriving DecidableEq, Repr

def rotate_trace (spr : ℕ) (pos degrees : ℚ) : RotateTrace :=
  let steps := steps_needed degrees spr
  { steps := steps
    hw_writes := step_hw_writes steps
    new_position := rotMod (pos + degrees)
    returned_true := true }

/-! ## Scan orchestration (`scanner.py`, `Scanner.perform_scan`, lines 121-244)

After the initialization check, the whole workflow runs in one `try`;
`frames_captured` is incremented per non-`None` frame; any exception is
caught at line 228, a best-effort `home()` is attempted (its own failure
swallowed, lines 233-237), and a failed `ScanResult` with the partial
count is returned. -/

/-- `scanner_types.py` `ScanResult`. -/
structure ScanResult where
  success : Bool
  frames_captured : ℕ
  output_path : String
  error : Option String
  deriving DecidableEq, Repr

/-- Outcome of `camera.grab_frame()` at one frame: a frame, `None`, or a
raised exception carrying a message. -/
inductive CapOutcome where
  | img : CapOutcome
  | failed : CapOutcome
  | throws (msg : String) : CapOutcome
  deriving DecidableEq, Repr

/-- Environment a `perform_scan` run executes against: which hardware calls
raise, and what each capture returns. -/
structure ScanEnv where
  num_frames : ℕ
  output_path : String
  home_fail : Option String
  rotate_fail : ℕ → Option String
  capture : ℕ → CapOutcome
  final_home_fail : Option String

/-- The frame loop (lines 169-197): for each frame index, `rotate` may
raise, then `grab_frame` may raise, return a frame (count incremented), or
return `None` (warning only, loop continues).  An error carries the
exception message and the partial `frames_captured` at that point. -/
def scan_frames (env : ScanEnv) : List ℕ → ℕ → Except (String × ℕ) ℕ
  | [], acc => Except.ok acc
  | i :: rest, acc =>
    match env.rotate_fail i with
    | some msg => Except.error (msg, acc)
    | none =>
      match env.capture i with
      | CapOutcome.throws msg => Except.error (msg, acc)
      | CapOutcome.img => scan_frames env rest (acc + 1)
      | CapOutcome.failed => scan_frames env rest acc

/-- The body of the `try` block of `perform_scan` (lines 155-226): home,
frame loop, final home, then the result assembly of lines 204-226. -/
def scan_body (env : ScanEnv) : Except (String × ℕ) ScanResult :=
  match env.home_fail with
  | some msg => Except.error (msg, 0)
  | none =>
    match scan_frames env (List.range env.num_frames) 0 with
    | Except.error e => Except.error e
    | Except.ok k =>
      match env.final_home_fail with
      | some msg => Except.error (msg, k)
      | none =>
        Except.ok
          { success := k == env.num_frames
            frames_captured := k
            output_path := env.output_path
            error :=
              if k == env.num_frames then none
              else some ("Only " ++ toString k ++ "/" ++ toString env.num_frames
                          ++ " frames captured") }

/-- `perform_scan` outcome: the returned `ScanResult` plus whether the
best-effort recovery `home()` of the exception handler was attempted. -/
structure ScanOutcome where
  result : ScanResult
  recovery_home_attempted : Bool
  deriving DecidableEq, Repr

/-- `perform_scan` on an initialized scanner (lines 155-244): the `except`
handler converts any exception into a failed result with the partial count
and the message, after attempting `home()`.  `recovery_home_fails` says
whether that best-effort `home()` raises; its `except: pass` (lines
233-237) swallows it, so the body never reads the flag. -/
def perform_scan (env : ScanEnv) (_recovery_home_fails : Bool) : ScanOutcome :=
  match scan_body env with
  | Except.ok r => { result := r, recovery_home_attempted := false }
  | Except.error (msg, k) =>
    { result :=
        { success := false
          frames_captured := k
          output_path := env.output_path
          error := some ("Scan failed: " ++ msg) }
      recovery_home_attempted := true }

/-- Number of frame indices in `l` whose capture yields a frame. -/
def img_count (env : ScanEnv) (l : List ℕ) : ℕ :=
  l.countP (fun i => env.capture i == CapOutcome.img)

/-! ## Streaming state (`ipc_handler.py`, `handle_camera_command`,
`start_stream`/`stop_stream` branches, lines 443-483)

`_streaming_active` is the shared flag, `_streaming_thread` the worker
handle; both branches run under `_streaming_lock`. -/

structure StreamState where
  streaming_active : Bool
  streaming_thread : Option ℕ
  next_thread_id : ℕ
  deriving DecidableEq, Repr

/-- The `DATA:` response sent by a stream command. -/
structure StreamResponse where
  success : Bool
  streaming : Bool
  message : Option String
  deriving DecidableEq, Repr

/-- `start_stream` (lines 443-465): when `_streaming_active` is already set,
reply success/"Already streaming" and return without touching state;
otherwise ensure the camera (abstracted by `camera_ok`), set the flag and
launch one new worker thread. -/
def start_stream (s : StreamState) (camera_ok : Bool) : StreamState × StreamResponse :=
  if s.streaming_active then
    (s, { success := true, streaming := true, message := some "Already streaming" })
  else if camera_ok then
    ({ streaming_active := true
       streaming_thread := some s.next_thread_id
       next_thread_id := s.next_thread_id + 1 },
     { success := true, streaming := true, message := none })
  else
    (s, { success := false, streaming := false,
          message := some "Camera not connected. Call connect() first or provide settings." })

/-- `stop_stream` (lines 468-483): when `_streaming_active` is not set,
reply success/"Not streaming" and return without touching state; otherwise
clear the flag, join and drop the worker. -/
def stop_stream (s : StreamState) : StreamState × StreamResponse :=
  if s.streaming_active then
    ({ streaming_active := false, streaming_thread := none,
       next_thread_id := s.next_thread_id },
     { success := true, streaming := false, message := none })
  else
    (s, { success := true, streaming := false, message := some "Not streaming" })

/-- Number of live streaming workers held by the handler state. -/
def live_workers (s : StreamState) : ℕ :=
  match s.streaming_thread with
  | some _ => 1
  | none => 0

theorem scan_frames_no_throw (env : ScanEnv) :
    ∀ l acc, (∀ i ∈ l, env.rotate_fail i = none) →
      (∀ i ∈ l, ∀ msg, env.capture i ≠ CapOutcome.throws msg) →
      scan_frames env l acc = Except.ok (acc + img_count env l) := by
  intro l
  induction l with
  | nil => intro acc _ _; simp [scan_frames, img_count]
  | cons i rest ih =>
    intro acc h1 h2
    have hr : env.rotate_fail i = none := h1 i (by simp)
    have h1' : ∀ j ∈ rest, env.rotate_fail j = none := fun j hj => h1 j (by simp [hj])
    have h2' : ∀ j ∈ rest, ∀ msg, env.capture j ≠ CapOutcome.throws msg :=
      fun j hj => h2 j (by simp [hj])
    simp only [scan_frames, hr]
    cases hc : env.capture i with
    | img =>
      rw [ih (acc + 1) h1' h2']
      simp only [img_count, List.countP_cons, hc]
      simp
      omega
    | failed =>
      rw [ih acc h1' h2']
      simp only [img_count, List.countP_cons, hc]
      simp
    | throws msg => exact absurd hc (h2 i (by simp) msg)

/-! ## Claims -/

/-- C1 counterexample: for `degrees = 1` with the default
`steps_per_revolution = 6400`, the code computes `int(6400/360) = 17`
steps, while `round(6400/360) = 18`: the rotation step count is not the
nearest integer. -/
theorem steps_needed_round_cex :
    ¬ ((steps_needed 1 6400 : ℤ) = round ((|(1 : ℚ)| * (6400 : ℕ)) / 360)) := by
  rw [steps_needed_eq_floor]
  norm_num [round_eq]

/-- C1 (amended): `rotate` computes `steps = floor(|degrees| ×
stepsPerRevolution / 360)` (Python `int()` truncation of a non-negative
value), with `steps = 0` when `degrees = 0`, and direction `+1` for
`degrees ≥ 0` (zero treated as positive), `-1` otherwise. -/
theorem rotate_steps_direction_spec (degrees : ℚ) (spr : ℕ) :
    (steps_needed degrees spr : ℤ) = ⌊|degrees| * spr / 360⌋
    ∧ (degrees = 0 → steps_needed degrees spr = 0)
    ∧ (0 ≤ degrees → rotate_direction degrees = 1)
    ∧ (degrees < 0 → rotate_direction degrees = -1) := by
  refine ⟨steps_needed_eq_floor degrees spr, ?_, ?_, ?_⟩
  · intro h
    subst h
    simp [steps_needed, pyInt]
  · intro h
    simp [rotate_direction, h]
  · intro h
    simp [rotate_direction, not_le.mpr h]

theorem rotate_steps_direction_spec_witness :
    (steps_needed 1 6400 : ℤ) = ⌊(|(1 : ℚ)| * (6400 : ℕ)) / 360⌋
    ∧ steps_needed 0 6400 = 0
    ∧ rotate_direction 1 = 1
    ∧ rotate_direction (-1) = -1 :=
  ⟨(rotate_steps_direction_spec 1 6400).1,
   (rotate_steps_direction_spec 0 6400).2.1 rfl,
   (rotate_steps_direction_spec 1 6400).2.2.1 (by norm_num),
   (rotate_steps_direction_spec (-1) 6400).2.2.2 (by norm_num)⟩

/-- C2 counterexample: at sample rate 3000 Hz, `samples_per_step = 3` but
each step emits only `2 * (3 / 2) = 2` samples, so one step yields a
2-sample train, not `1 × floor(3000/1000) = 3`. -/
theorem pulse_train_length_cex :
    ¬ ((generate_step_pulses 1 1 3000).stepCh.length = 1 * (3000 / 1000)) := by
  decide

/-- C2 (amended): for every step count `n`, direction and sample rate `r`,
the pulse train has `n × 2 × floor(floor(r/1000)/2)` samples per channel
(which equals `n × floor(r/1000)` only when `floor(r/1000)` is even); the
`k`-th step's slice of the step line, in order, is exactly
`floor(floor(r/1000)/2)` low samples followed by `floor(floor(r/1000)/2)`
high samples (so exactly half of each step's samples are high and half
low, whole-train counts included), and the direction line is the constant
`direction > 0` over the whole train. -/
theorem generate_step_pulses_spec (n : ℕ) (direction : ℤ) (rate : ℕ) :
    (generate_step_pulses n direction rate).stepCh.length = n * (2 * (rate / 1000 / 2))
    ∧ (∀ k, k < n →
        (((generate_step_pulses n direction rate).stepCh.drop
            (k * (2 * (rate / 1000 / 2)))).take (2 * (rate / 1000 / 2)))
          = List.replicate (rate / 1000 / 2) false
            ++ List.replicate (rate / 1000 / 2) true)
    ∧ (generate_step_pulses n direction rate).stepCh.count true = n * (rate / 1000 / 2)
    ∧ (generate_step_pulses n direction rate).stepCh.count false = n * (rate / 1000 / 2)
    ∧ (generate_step_pulses n direction rate).dirCh
        = List.replicate (n * (2 * (rate / 1000 / 2))) (decide (0 < direction)) := by
  refine ⟨?_, ?_, ?_, ?_, ?_⟩
  · simp [generate_step_pulses, step_samples_length]
  · intro k hk
    simp only [generate_step_pulses]
    exact step_samples_step_shape (rate / 1000 / 2) n k hk
  · simp [generate_step_pulses, step_samples_count_true]
  · simp [generate_step_pulses, step_samples_count_false]
  · simp [generate_step_pulses, step_samples_length]

theorem generate_step_pulses_spec_witness :
    ((generate_step_pulses 2 1 40000).stepCh.drop 40).take 40
      = List.replicate 20 false ++ List.replicate 20 true :=
  (generate_step_pulses_spec 2 1 40000).2.1 1 (by norm_num)

theorem write_and_execute_waitCalls (w : ℕ → WaitOutcome) (sf : Bool) :
    (write_and_execute w sf).waitCalls = (wait_loop w).1 := by
  rcases hw : wait_loop w with ⟨c, r⟩
  cases r <;> cases sf <;> simp [write_and_execute, hw]

/-- C3: the `_write_and_execute` wait loop makes at most 1000 wait attempts;
a non-timeout error at attempt `i` (after `i` timeout retries) aborts
immediately with that error after exactly `i + 1` wait calls; 1000 straight
timeout results exhaust the retries and fail with the motion-timeout error;
every failing run has stopped the task, and a stop failure during that
cleanup does not change the outcome. -/
theorem write_and_execute_retry_policy :
    (∀ w sf, (write_and_execute w sf).waitCalls ≤ DAQ_RETRY_MAX_ATTEMPTS)
    ∧ (∀ w sf (code : ℤ) i, i < DAQ_RETRY_MAX_ATTEMPTS →
        w i = WaitOutcome.daqError code → code ≠ DAQ_ERROR_TIMEOUT →
        (∀ j, j < i → w j = WaitOutcome.daqError DAQ_ERROR_TIMEOUT) →
        write_and_execute w sf =
          { waitCalls := i + 1, result := some (ExecError.daqError code),
            stopCalled := true })
    ∧ (∀ w sf,
        (∀ j, j < DAQ_RETRY_MAX_ATTEMPTS → w j = WaitOutcome.daqError DAQ_ERROR_TIMEOUT) →
        write_and_execute w sf =
          { waitCalls := DAQ_RETRY_MAX_ATTEMPTS, result := some ExecError.motionTimeout,
            stopCalled := true })
    ∧ (∀ w sf, (write_and_execute w sf).result ≠ none →
        (write_and_execute w sf).stopCalled = true)
    ∧ (∀ w b b', (wait_loop w).2 ≠ WaitLoopResult.completed →
        write_and_execute w b = write_and_execute w b') := by
  refine ⟨?_, ?_, ?_, ?_, ?_⟩
  · intro w sf
    rw [write_and_execute_waitCalls]
    have := wait_loop_aux_calls_le w DAQ_RETRY_MAX_ATTEMPTS 0
    simpa [wait_loop] using this
  · intro w sf code i hi hv hc hprev
    have hl : wait_loop w = (0 + i + 1, WaitLoopResult.aborted code) :=
      wait_loop_aux_aborted w code hc i DAQ_RETRY_MAX_ATTEMPTS 0 hi (by simpa using hv)
        (fun j hj => by simpa using hprev j hj)
    simp only [Nat.zero_add] at hl
    simp [write_and_execute, hl]
  · intro w sf hall
    have hl : wait_loop w = (0 + DAQ_RETRY_MAX_ATTEMPTS, WaitLoopResult.exhausted) :=
      wait_loop_aux_exhausted w DAQ_RETRY_MAX_ATTEMPTS 0
        (fun j _ hj2 => hall j (by simpa using hj2))
    simp only [Nat.zero_add] at hl
    simp [write_and_execute, hl]
  · intro w sf _
    rcases hw : wait_loop w with ⟨c, r⟩
    cases r <;> cases sf <;> simp [write_and_execute, hw]
  · intro w b b' h
    rcases hw : wait_loop w with ⟨c, r⟩
    cases r with
    | completed => exact absurd (by rw [hw]) h
    | aborted code => simp [write_and_execute, hw]
    | exhausted => simp [write_and_execute, hw]

theorem write_and_execute_retry_policy_witness :
    write_and_execute (fun _ => WaitOutcome.daqError DAQ_ERROR_TIMEOUT) true =
      { waitCalls := DAQ_RETRY_MAX_ATTEMPTS, result := some ExecError.motionTimeout,
        stopCalled := true } :=
  write_and_execute_retry_policy.2.2.1 _ true (fun _ _ => rfl)

/-- C6: from any position in `[0, 360)`, `home` commands a rotation with
`|delta| ≤ 180` (taking `-p` for `p ≤ 180` and the complementary arc
`360 - p` for `p > 180`), skips the rotate call exactly when `p` is within
0.1° of home on the circle, and on success always sets the stored position
to exactly 0. -/
theorem home_shortest_arc (p : ℚ) (h0 : 0 ≤ p) (h1 : p < 360) :
    |degrees_to_home p| ≤ 180
    ∧ (p ≤ 180 → degrees_to_home p = -p)
    ∧ (180 < p → degrees_to_home p = 360 - p)
    ∧ (home_rotate_arg p = none ↔ (p ≤ 1 / 10 ∨ 360 - p ≤ 1 / 10))
    ∧ (∀ s : DAQState, s.is_initialized = true →
        apply_daq_op s DAQOp.home =
          Except.ok { is_initialized := true, current_position := 0 }) := by
  have habs : |(-p)| = p := by rw [abs_neg, abs_of_nonneg h0]
  have hle : ∀ h : p ≤ 180, degrees_to_home p = -p := by
    intro h
    simp only [degrees_to_home]
    rw [habs, if_neg (not_lt.mpr h)]
  have hgt : ∀ h : 180 < p, degrees_to_home p = 360 - p := by
    intro h
    simp only [degrees_to_home]
    rw [habs, if_pos h, if_neg (by intro hneg; rw [neg_pos] at hneg; linarith)]
    ring
  refine ⟨?_, hle, hgt, ?_, ?_⟩
  · by_cases hp : p ≤ 180
    · rw [hle hp, abs_neg, abs_of_nonneg h0]; exact hp
    · push_neg at hp
      rw [hgt hp, abs_of_nonneg (by linarith)]
      linarith
  · by_cases hp : p ≤ 180
    · rw [home_rotate_arg]
      simp only [hle hp, abs_neg, abs_of_nonneg h0]
      constructor
      · intro h
        by_cases hq : 1 / 10 < p
        · rw [if_pos hq] at h; exact absurd h (by simp)
        · exact Or.inl (not_lt.mp hq)
      · intro h
        rcases h with h | h
        · rw [if_neg (not_lt.mpr h)]
        · linarith
    · push_neg at hp
      rw [home_rotate_arg]
      simp only [hgt hp, abs_of_nonneg (by linarith : (0 : ℚ) ≤ 360 - p)]
      constructor
      · intro h
        by_cases hq : 1 / 10 < 360 - p
        · rw [if_pos hq] at h; exact absurd h (by simp)
        · exact Or.inr (not_lt.mp hq)
      · intro h
        rcases h with h | h
        · linarith
        · rw [if_neg (not_lt.mpr h)]
  · intro s hs
    simp [apply_daq_op, hs]

theorem home_shortest_arc_witness :
    |degrees_to_home 270| ≤ 180
    ∧ degrees_to_home 270 = 360 - 270
    ∧ apply_daq_op { is_initialized := true, current_position := 270 } DAQOp.home =
        Except.ok { is_initialized := true, current_position := 0 } :=
  ⟨(home_shortest_arc 270 (by norm_num) (by norm_num)).1,
   (home_shortest_arc 270 (by norm_num) (by norm_num)).2.2.1 (by norm_num),
   (home_shortest_arc 270 (by norm_num) (by norm_num)).2.2.2.2 _ rfl⟩

/-- The position invariant of the DAQ state. -/
def position_in_range (s : DAQState) : Prop :=
  0 ≤ s.current_position ∧ s.current_position < 360

/-- C7: the stored position lies in `[0, 360)` initially and after every
successful `initialize`, `rotate`, `step`, `home` and `cleanup`
transition. -/
theorem daq_position_invariant :
    position_in_range DAQState.new
    ∧ ∀ (s : DAQState) (op : DAQOp) (s' : DAQState),
        position_in_range s → apply_daq_op s op = Except.ok s' →
        position_in_range s' := by
  constructor
  · exact ⟨le_refl 0, by norm_num [DAQState.new]⟩
  · intro s op s' hs h
    cases op with
    | init =>
      cases hini : s.is_initialized <;> simp [apply_daq_op, hini] at h
      · rw [← h]; exact ⟨le_refl 0, by norm_num⟩
      · rw [← h]; exact hs
    | rotate d =>
      cases hini : s.is_initialized <;> simp [apply_daq_op, hini] at h
      rw [← h]
      exact ⟨rotMod_nonneg _, rotMod_lt _⟩
    | step n dir =>
      cases hini : s.is_initialized <;> simp [apply_daq_op, hini] at h
      by_cases hdir : dir = 1 ∨ dir = -1
      · rw [if_pos hdir] at h
        simp at h
        rw [← h]; exact hs
      · rw [if_neg hdir] at h
        simp at h
    | home =>
      cases hini : s.is_initialized <;> simp [apply_daq_op, hini] at h
      rw [← h]; exact ⟨le_refl 0, by norm_num⟩
    | cleanup =>
      simp [apply_daq_op] at h
      rw [← h]
      exact hs

theorem daq_position_invariant_witness :
    position_in_range { is_initialized := true, current_position := 30 } := by
  have hrot : rotMod ((90 : ℚ) + 300) = 30 := by
    rw [rotMod]
    norm_num
  exact daq_position_invariant.2 { is_initialized := true, current_position := 90 }
    (DAQOp.rotate 300) { is_initialized := true, current_position := 30 }
    ⟨by norm_num, by norm_num⟩ (by simp [apply_daq_op, hrot])

/-- C8: two successful rotations by `d` then `-d` return the stored
position to its original value modulo 360, and to exactly the original
value whenever it was in `[0, 360)`. -/
theorem rotate_then_unrotate (s : DAQState) (d : ℚ) (s1 s2 : DAQState)
    (ha : apply_daq_op s (DAQOp.rotate d) = Except.ok s1)
    (hb : apply_daq_op s1 (DAQOp.rotate (-d)) = Except.ok s2) :
    s2.current_position = rotMod s.current_position
    ∧ (0 ≤ s.current_position → s.current_position < 360 →
        s2.current_position = s.current_position) := by
  cases hini : s.is_initialized <;> simp [apply_daq_op, hini] at ha
  rw [← ha] at hb
  simp [apply_daq_op] at hb
  have h2 : s2.current_position = rotMod (rotMod (s.current_position + d) + -d) := by
    rw [← hb]
  have h3 : s2.current_position = rotMod s.current_position := by
    rw [h2, rotMod_rotMod_add]
    congr 1
    ring
  exact ⟨h3, fun hp0 hp1 => by rw [h3, rotMod_eq_self _ hp0 hp1]⟩

theorem rotate_then_unrotate_witness :
    ({ is_initialized := true,
       current_position := rotMod (rotMod (10 + 355) + -355) } : DAQState).current_position
      = 10 :=
  (rotate_then_unrotate { is_initialized := true, current_position := 10 } 355
      { is_initialized := true, current_position := rotMod (10 + 355) }
      { is_initialized := true, current_position := rotMod (rotMod (10 + 355) + -355) }
      (by simp [apply_daq_op]) (by simp [apply_daq_op])).2 (by norm_num) (by norm_num)

/-- C10: when `0 < |degrees| × spr / 360 < 1`, `rotate` computes zero steps,
`step` issues no hardware write at all, yet the stored position is advanced
by the full requested `degrees` (mod 360) and the call reports success. -/
theorem rotate_substep_accumulates (spr : ℕ) (pos degrees : ℚ)
    (h0 : 0 < |degrees| * spr / 360) (h1 : |degrees| * spr / 360 < 1) :
    rotate_trace spr pos degrees =
      { steps := 0, hw_writes := 0, new_position := rotMod (pos + degrees),
        returned_true := true }
    ∧ (∀ s : DAQState, s.is_initialized = true →
        apply_daq_op s (DAQOp.rotate degrees) =
          Except.ok { is_initialized := true,
                      current_position := rotMod (s.current_position + degrees) }) := by
  have hfl : ⌊|degrees| * spr / 360⌋ = 0 := by
    rw [Int.floor_eq_zero_iff]
    exact ⟨le_of_lt h0, h1⟩
  have hsteps : steps_needed degrees spr = 0 := by
    have := steps_needed_eq_floor degrees spr
    rw [hfl] at this
    exact_mod_cast this
  constructor
  · simp [rotate_trace, hsteps, step_hw_writes]
  · intro s hs
    simp [apply_daq_op, hs]

theorem rotate_substep_accumulates_witness :
    rotate_trace 6400 0 (1 / 100) =
      { steps := 0, hw_writes := 0, new_position := rotMod (0 + 1 / 100),
        returned_true := true } :=
  (rotate_substep_accumulates 6400 0 (1 / 100) (by norm_num)
    (by rw [show |(1 : ℚ) / 100| = 1 / 100 from by norm_num]; norm_num)).1

/-- C4: any exception raised inside the `try` block of `perform_scan`
(homing, rotation, capture) is caught: the scan returns a failed
`ScanResult` with the partial frame count and the message, after a
best-effort recovery `home()` whose own failure is swallowed (the outcome
does not depend on whether that `home()` raises); no exception propagates. -/
theorem perform_scan_catches_exceptions (env : ScanEnv) (msg : String) (k : ℕ)
    (h : scan_body env = Except.error (msg, k)) :
    (∀ rhf, perform_scan env rhf =
      { result :=
          { success := false, frames_captured := k, output_path := env.output_path,
            error := some ("Scan failed: " ++ msg) }
        recovery_home_attempted := true })
    ∧ (∀ b b', perform_scan env b = perform_scan env b') := by
  constructor
  · intro rhf
    simp [perform_scan, h]
  · intro b b'
    rfl

/-- A run whose very first `home()` raises. -/
def envHomeFail : ScanEnv :=
  { num_frames := 3
    output_path := "./scans"
    home_fail := some "DAQ not initialized. Call initialize() first."
    rotate_fail := fun _ => none
    capture := fun _ => CapOutcome.img
    final_home_fail := none }

theorem perform_scan_catches_exceptions_witness :
    perform_scan envHomeFail true =
      { result :=
          { success := false, frames_captured := 0, output_path := "./scans",
            error := some "Scan failed: DAQ not initialized. Call initialize() first." }
        recovery_home_attempted := true } :=
  (perform_scan_catches_exceptions envHomeFail
    "DAQ not initialized. Call initialize() first." 0 rfl).1 true

/-- C5: when nothing raises, a `None` frame is non-fatal: the loop runs all
`num_frames` iterations, the result's `success` holds iff every frame was
captured, and on a shortfall the error is the `"Only <k>/<n> frames
captured"` message (`none` when successful); no recovery home is
attempted. -/
theorem perform_scan_partial_capture (env : ScanEnv) (rhf : Bool)
    (h1 : env.home_fail = none) (h2 : env.final_home_fail = none)
    (h3 : ∀ i ∈ List.range env.num_frames, env.rotate_fail i = none)
    (h4 : ∀ i ∈ List.range env.num_frames, ∀ msg, env.capture i ≠ CapOutcome.throws msg) :
    perform_scan env rhf =
      { result :=
          { success := img_count env (List.range env.num_frames) == env.num_frames
            frames_captured := img_count env (List.range env.num_frames)
            output_path := env.output_path
            error :=
              if img_count env (List.range env.num_frames) == env.num_frames then none
              else some ("Only " ++ toString (img_count env (List.range env.num_frames))
                          ++ "/" ++ toString env.num_frames ++ " frames captured") }
        recovery_home_attempted := false } := by
  have hsf := scan_frames_no_throw env (List.range env.num_frames) 0 h3 h4
  simp only [Nat.zero_add] at hsf
  simp [perform_scan, scan_body, h1, h2, hsf]

/-- A 5-frame run in which exactly the capture of frame index 2 returns
`None` and everything else succeeds. -/
def envOneDrop : ScanEnv :=
  { num_frames := 5
    output_path := "./scans"
    home_fail := none
    rotate_fail := fun _ => none
    capture := fun i => if i = 2 then CapOutcome.failed else CapOutcome.img
    final_home_fail := none }

theorem perform_scan_partial_capture_witness :
    perform_scan envOneDrop false =
      { result :=
          { success := false, frames_captured := 4, output_path := "./scans",
            error := some "Only 4/5 frames captured" }
        recovery_home_attempted := false } := by
  have h := perform_scan_partial_capture envOneDrop false rfl rfl
    (fun i _ => rfl)
    (fun i _ msg => by by_cases hi : i = 2 <;> simp [envOneDrop, hi])
  rw [h]
  rfl

/-- C9: starting a stream while one is active returns a success response
and leaves the streaming state (flag, worker handle, id counter) unchanged,
so no second worker is launched and at most one worker exists; stopping
with no active stream returns a success response and changes no state. -/
theorem stream_start_stop_idempotent :
    (∀ (s : StreamState) (camera_ok : Bool), s.streaming_active = true →
        start_stream s camera_ok =
          (s, { success := true, streaming := true, message := some "Already streaming" }))
    ∧ (∀ s : StreamState, s.streaming_active = false →
        stop_stream s =
          (s, { success := true, streaming := false, message := some "Not streaming" }))
    ∧ (∀ s : StreamState, live_workers s ≤ 1)
    ∧ (∀ s : StreamState, s.streaming_active = false →
        ∀ s1 r1, start_stream s true = (s1, r1) →
          r1.success = true ∧
          start_stream s1 true =
            (s1, { success := true, streaming := true,
                   message := some "Already streaming" })) := by
  refine ⟨?_, ?_, ?_, ?_⟩
  · intro s camera_ok h
    simp [start_stream, h]
  · intro s h
    simp [stop_stream, h]
  · intro s
    rw [live_workers]
    cases s.streaming_thread <;> simp
  · intro s h s1 r1 heq
    simp only [start_stream, h, Bool.false_eq_true, if_false, if_true, Prod.mk.injEq] at heq
    obtain ⟨h1, h2⟩ := heq
    subst h1
    subst h2
    exact ⟨rfl, by simp [start_stream]⟩

theorem stream_start_stop_idempotent_witness :
    start_stream { streaming_active := true, streaming_thread := some 0, next_thread_id := 1 }
        true =
      ({ streaming_active := true, streaming_thread := some 0, next_thread_id := 1 },
       { success := true, streaming := true, message := some "Already streaming" })
    ∧ stop_stream { streaming_active := false, streaming_thread := none, next_thread_id := 0 } =
      ({ streaming_active := false, streaming_thread := none, next_thread_id := 0 },
       { success := true, streaming := false, message := some "Not streaming" }) :=
  ⟨stream_start_stop_idempotent.1 _ true rfl, stream_start_stop_idempotent.2.1 _ rfl⟩
